import Mathlib

/-!
Shallow embedding of the `hunter` candidate-graph core, translated from the
Python sources:

  src/hunter/domains/types.py          (NodeLabel, RelType)
  src/hunter/domains/schema.py         (PropertySpec, NodeSchema, RelationshipSchema, default_schema)
  src/hunter/utils/cypher_builder.py   (_ensure_label, _ensure_rel, build_merge_node, build_link)
  src/hunter/utils/helpers.py          (_strip_or_none)
  src/hunter/repository/feature_repo.py (_DictRepo.upsert, _DictRepo.link_by_uids, six concrete repos)
  src/hunter/domains/relationships.py  (WeightEdge.set_weight, UnweightEdge, Studied.degree_to_score)
  src/hunter/repository/match_repo.py  (_merge_weights, DEFAULT_WEIGHTS, _CYPHER_MATCH_AND_SCORE filter)
  src/hunter/services/candidates.py    (query_candidates WHERE clause, same filter fragment)

Python runtime values are modelled by the inductive `PyVal`; machine floats are
modelled by exact rationals (the operations involved - max, division by powers
of ten, comparison - are exact at every input the theorems use). Cypher's
three-valued logic is modelled by `TV`.
-/

namespace Hunter

/-- Runtime value of a Python property map entry. `none` models Python `None`. -/
inductive PyVal where
  | none
  | str (s : String)
  | int (i : Int)
  | bool (b : Bool)
  | float (q : ℚ)
  | list (l : List PyVal)

/-- Python class object usable inside a `PropertySpec.py_type` tuple. -/
inductive PyType where
  | str
  | int
  | bool
  | float
  | list
deriving DecidableEq, Repr

/-- Python `isinstance(v, t)` for the classes above. A Python `bool` is a
subclass of `int`, so a bool value is an instance of `int` as well. -/
def isinst : PyVal → PyType → Bool
  | .str _, .str => true
  | .int _, .int => true
  | .bool _, .bool => true
  | .bool _, .int => true
  | .float _, .float => true
  | .list _, .list => true
  | _, _ => false

/-- Python `isinstance(v, spec.py_type)` over the whole tuple. -/
def isinstAny (v : PyVal) (ts : List PyType) : Bool :=
  ts.any (fun t => isinst v t)

/-- Node labels, from `domains/types.py` (`class NodeLabel(str, Enum)`). -/
inductive NodeLabel where
  | Candidate
  | Skill
  | Project
  | Language
  | JobTitle
  | Major
  | University
deriving DecidableEq, Repr

/-- String value of a `NodeLabel` member (the enum is a str-Enum). -/
def NodeLabel.value : NodeLabel → String
  | .Candidate => "Candidate"
  | .Skill => "Skill"
  | .Project => "Project"
  | .Language => "Language"
  | .JobTitle => "JobTitle"
  | .Major => "Major"
  | .University => "University"

/-- Python `NodeLabel(s)` lookup by value; `Option.none` models the
`ValueError` raised for a string outside the catalog. -/
def nodeLabelOfString : String → Option NodeLabel
  | "Candidate" => some .Candidate
  | "Skill" => some .Skill
  | "Project" => some .Project
  | "Language" => some .Language
  | "JobTitle" => some .JobTitle
  | "Major" => some .Major
  | "University" => some .University
  | _ => Option.none

/-- Relationship types, from `domains/types.py` (`class RelType(str, Enum)`). -/
inductive RelType where
  | HAS_SKILL
  | WORKED_ON
  | SPEAKS
  | HAS_TITLE
  | MAJORED_IN
  | GRADUATED_FROM
deriving DecidableEq, Repr

/-- String value of a `RelType` member. -/
def RelType.value : RelType → String
  | .HAS_SKILL => "HAS_SKILL"
  | .WORKED_ON => "WORKED_ON"
  | .SPEAKS => "SPEAKS"
  | .HAS_TITLE => "HAS_TITLE"
  | .MAJORED_IN => "MAJORED_IN"
  | .GRADUATED_FROM => "GRADUATED_FROM"

/-- Python `RelType(s)` lookup by value. -/
def relTypeOfString : String → Option RelType
  | "HAS_SKILL" => some .HAS_SKILL
  | "WORKED_ON" => some .WORKED_ON
  | "SPEAKS" => some .SPEAKS
  | "HAS_TITLE" => some .HAS_TITLE
  | "MAJORED_IN" => some .MAJORED_IN
  | "GRADUATED_FROM" => some .GRADUATED_FROM
  | _ => Option.none

/-- Translation of `GraphSchemaError` messages: a structured error carrying the
offending names instead of the formatted f-string. -/
inductive GraphSchemaError where
  | unknownProperty (owner : String) (keys : String)
  | missingRequired (owner : String) (keys : String)
  | typeMismatch (owner : String) (key : String)
  | endpointMismatch (relType : String)
  | unknownLabel (label : String)
  | unknownRelType (rel : String)
  | emptyMergeOn
  | missingMergeKey (key : String)
deriving DecidableEq, Repr

/-- Translation of `PropertySpec` from `domains/schema.py`. -/
structure PropertySpec where
  name : String
  py_type : List PyType
  required : Bool
deriving DecidableEq, Repr

/-- Translation of `NodeSchema`: `properties` is the insertion-ordered dict. -/
structure NodeSchema where
  label : NodeLabel
  properties : List (String × PropertySpec)
  unique_keys : List String
deriving DecidableEq, Repr

/-- Translation of `RelationshipSchema`. -/
structure RelationshipSchema where
  rel_type : RelType
  start_label : NodeLabel
  end_label : NodeLabel
  properties : List (String × PropertySpec)
deriving DecidableEq, Repr

/-- Property map of a node or relationship: an insertion-ordered Python dict
whose keys are unique in every call made by the source. -/
abbrev Props := List (String × PyVal)

/-- Per-entry check of the final loop of `NodeSchema.validate_props` and
`RelationshipSchema.validate`: `None` values are skipped, other values must be
an instance of the declared type tuple. The `Option.none` lookup branch is
unreachable in the validators because unknown keys were already rejected. -/
def typeOk (properties : List (String × PropertySpec)) (kv : String × PyVal) : Bool :=
  match kv.2 with
  | .none => true
  | v =>
    match properties.lookup kv.1 with
    | some spec => isinstAny v spec.py_type
    | Option.none => true

/-- Translation of `NodeSchema.validate_props` (domains/schema.py lines 25-47). -/
def NodeSchema.validate_props (s : NodeSchema) (props : Props) : Except GraphSchemaError Unit :=
  let allowed := s.properties.map Prod.fst
  let unknown := (props.map Prod.fst).filter (fun k => !allowed.contains k)
  if unknown.isEmpty then
    let missing := (s.properties.filter
      (fun p => p.2.required && !(props.map Prod.fst).contains p.1)).map Prod.fst
    if missing.isEmpty then
      match props.find? (fun kv => !typeOk s.properties kv) with
      | some kv => .error (.typeMismatch s.label.value kv.1)
      | Option.none => .ok ()
    else .error (.missingRequired s.label.value (String.intercalate ", " missing))
  else .error (.unknownProperty s.label.value (String.intercalate ", " unknown))

/-- Translation of `RelationshipSchema.validate` (domains/schema.py lines 56-75). -/
def RelationshipSchema.validate (s : RelationshipSchema) (start_label end_label : NodeLabel)
    (props : Props) : Except GraphSchemaError Unit :=
  if start_label ≠ s.start_label ∨ end_label ≠ s.end_label then
    .error (.endpointMismatch s.rel_type.value)
  else
    let allowed := s.properties.map Prod.fst
    let unknown := (props.map Prod.fst).filter (fun k => !allowed.contains k)
    if unknown.isEmpty then
      match props.find? (fun kv => !typeOk s.properties kv) with
      | some kv => .error (.typeMismatch s.rel_type.value kv.1)
      | Option.none => .ok ()
    else .error (.unknownProperty s.rel_type.value (String.intercalate ", " unknown))

/-! Translation of `default_schema()` (domains/schema.py lines 115-259). The
registry dictionaries `_nodes` and `_rels` are total over the two enums, so the
lookups `GraphSchema.node` and `GraphSchema.relationship` never raise and are
modelled as total functions. -/

/-- Shared specs `uid`, `created_at`, `updated_at` plus the dict-node commons. -/
def uidSpec : PropertySpec := ⟨"uid", [.str], false⟩

def nameSpec : PropertySpec := ⟨"name", [.str], true⟩

def titleSpec : PropertySpec := ⟨"title", [.str], true⟩

def createdAtSpec : PropertySpec := ⟨"created_at", [.str], false⟩

def updatedAtSpec : PropertySpec := ⟨"updated_at", [.str], false⟩

/-- Python `dict_common` entries, in insertion order. -/
def dictCommon : List (String × PropertySpec) :=
  [("uid", uidSpec), ("created_at", createdAtSpec), ("updated_at", updatedAtSpec)]

/-- Registry lookup `SCHEMA.node(label)` over the default schema. -/
def SCHEMA_node : NodeLabel → NodeSchema
  | .Candidate =>
    { label := .Candidate
      properties :=
        [("uid", uidSpec),
         ("name", nameSpec),
         ("location", ⟨"location", [.str], false⟩),
         ("headline", ⟨"headline", [.str], false⟩),
         ("remote_ok", ⟨"remote_ok", [.bool], false⟩),
         ("experience_years", ⟨"experience_years", [.int, .float], false⟩),
         ("salary_currency", ⟨"salary_currency", [.str], false⟩),
         ("salary_min", ⟨"salary_min", [.int, .float], false⟩),
         ("salary_max", ⟨"salary_max", [.int, .float], false⟩),
         ("created_at", createdAtSpec),
         ("updated_at", updatedAtSpec)]
      unique_keys := ["uid"] }
  | .Skill => { label := .Skill, properties := dictCommon ++ [("name", nameSpec)], unique_keys := ["name"] }
  | .Project => { label := .Project, properties := dictCommon ++ [("name", nameSpec)], unique_keys := ["name"] }
  | .Language => { label := .Language, properties := dictCommon ++ [("name", nameSpec)], unique_keys := ["name"] }
  | .JobTitle => { label := .JobTitle, properties := dictCommon ++ [("title", titleSpec)], unique_keys := ["title"] }
  | .Major => { label := .Major, properties := dictCommon ++ [("name", nameSpec)], unique_keys := ["name"] }
  | .University => { label := .University, properties := dictCommon ++ [("name", nameSpec)], unique_keys := ["name"] }

/-- Python `rel_common()` entries, in insertion order. -/
def relCommon : List (String × PropertySpec) :=
  [("eid", ⟨"eid", [.str], false⟩), ("created_at", createdAtSpec), ("updated_at", updatedAtSpec)]

/-- Registry lookup `SCHEMA.relationship(rel_type)` over the default schema. -/
def SCHEMA_rel : RelType → RelationshipSchema
  | .HAS_SKILL =>
    { rel_type := .HAS_SKILL, start_label := .Candidate, end_label := .Skill
      properties := relCommon ++
        [("level", ⟨"level", [.int, .str], false⟩),
         ("level_num", ⟨"level_num", [.int], false⟩),
         ("years", ⟨"years", [.int, .float], false⟩),
         ("weight", ⟨"weight", [.int, .float], false⟩)] }
  | .WORKED_ON =>
    { rel_type := .WORKED_ON, start_label := .Candidate, end_label := .Project
      properties := relCommon ++
        [("since", ⟨"since", [.int, .str], false⟩),
         ("until", ⟨"until", [.int, .str], false⟩),
         ("role", ⟨"role", [.str], false⟩),
         ("description", ⟨"description", [.str], false⟩),
         ("objective", ⟨"objective", [.str], false⟩),
         ("contribution", ⟨"contribution", [.str], false⟩),
         ("impact", ⟨"impact", [.str], false⟩),
         ("duration", ⟨"duration", [.str], false⟩),
         ("collaboration_type", ⟨"collaboration_type", [.str], false⟩),
         ("scale", ⟨"scale", [.str], false⟩),
         ("tech_stack", ⟨"tech_stack", [.list], false⟩),
         ("skills_applied", ⟨"skills_applied", [.list], false⟩)] }
  | .SPEAKS =>
    { rel_type := .SPEAKS, start_label := .Candidate, end_label := .Language
      properties := relCommon ++
        [("level", ⟨"level", [.int, .str], false⟩),
         ("level_num", ⟨"level_num", [.int], false⟩)] }
  | .HAS_TITLE =>
    { rel_type := .HAS_TITLE, start_label := .Candidate, end_label := .JobTitle
      properties := relCommon ++
        [("since", ⟨"since", [.int, .str], false⟩),
         ("until", ⟨"until", [.int, .str], false⟩)] }
  | .MAJORED_IN =>
    { rel_type := .MAJORED_IN, start_label := .Candidate, end_label := .Major
      properties := relCommon ++
        [("degree", ⟨"degree", [.str], false⟩),
         ("gpa", ⟨"gpa", [.int, .float], false⟩)] }
  | .GRADUATED_FROM =>
    { rel_type := .GRADUATED_FROM, start_label := .Candidate, end_label := .University
      properties := relCommon ++ [("year", ⟨"year", [.int], false⟩)] }

/-! Translation of `utils/cypher_builder.py`. The Python signatures accept
either an enum member or a raw string: that union is `LabelArg`/`RelArg`. -/

/-- Argument of type `NodeLabel | str`. -/
inductive LabelArg where
  | enum (l : NodeLabel)
  | str (s : String)

/-- Argument of type `RelType | str`. -/
inductive RelArg where
  | enum (r : RelType)
  | str (s : String)

/-- Translation of `_ensure_label` (cypher_builder.py lines 8-14). -/
def ensureLabel : LabelArg → Except GraphSchemaError NodeLabel
  | .enum l => .ok l
  | .str s =>
    match nodeLabelOfString s with
    | some l => .ok l
    | Option.none => .error (.unknownLabel s)

/-- Translation of `_ensure_rel` (cypher_builder.py lines 17-23). -/
def ensureRel : RelArg → Except GraphSchemaError RelType
  | .enum r => .ok r
  | .str s =>
    match relTypeOfString s with
    | some r => .ok r
    | Option.none => .error (.unknownRelType s)

/-- Python `filter(None, parts)` over optional strings: drops `None` and the
empty string (both falsy). -/
def pyFilterTruthy (l : List (Option String)) : List String :=
  (l.filterMap id).filter (fun s => !s.isEmpty)

/-- Statement text of `build_merge_node`: it reads the property map only
through its key list `ks`, never through the values. -/
def mergeNodeText (lbl : NodeLabel) (ks : List String) (merge_on : List String)
    (rAlias : String) (return_field : Option String) : String :=
  let merge_pairs := String.intercalate ", " (merge_on.map (fun k => k ++ ": $" ++ k))
  let set_pairs := String.intercalate ",\n              "
    ((ks.filter (fun k => !merge_on.contains k)).map (fun k => rAlias ++ "." ++ k ++ " = $" ++ k))
  let schemaKeys := (SCHEMA_node lbl).properties.map Prod.fst
  let on_create_ts : Option String :=
    if schemaKeys.contains "created_at" then some (rAlias ++ ".created_at = datetime()") else Option.none
  let on_update_ts : Option String :=
    if schemaKeys.contains "updated_at" then some (rAlias ++ ".updated_at = datetime()") else Option.none
  let on_create_uid : Option String :=
    if schemaKeys.contains "uid" then some (rAlias ++ ".uid = coalesce($uid, randomUUID())") else Option.none
  let on_create_set := String.intercalate ",\n                          "
    (pyFilterTruthy [some set_pairs, on_create_uid, on_create_ts])
  let on_match_set := String.intercalate ",\n                          "
    (pyFilterTruthy [some set_pairs, on_update_ts])
  let ret_clause :=
    match return_field with
    | some f => "RETURN " ++ rAlias ++ "." ++ f ++ " AS " ++ f
    | Option.none => "RETURN " ++ rAlias
  "MERGE (" ++ rAlias ++ ":" ++ lbl.value ++ " \x7b" ++ merge_pairs ++ "\x7d)\n"
    ++ "ON CREATE SET " ++ (if !on_create_set.isEmpty then on_create_set else " ") ++ "\n"
    ++ "ON MATCH  SET " ++ (if !on_match_set.isEmpty then on_match_set else " ") ++ "\n"
    ++ ret_clause

/-- Bound parameters of `build_merge_node`: `dict(props)` plus a `uid` entry
set to `None` when the label declares `uid` and the caller did not pass one. -/
def mergeNodeParams (lbl : NodeLabel) (props : Props) : Props :=
  let schemaKeys := (SCHEMA_node lbl).properties.map Prod.fst
  props ++
    (if schemaKeys.contains "uid" && !(props.map Prod.fst).contains "uid"
     then [("uid", PyVal.none)] else [])

/-- Translation of `build_merge_node` (cypher_builder.py lines 43-88). -/
def build_merge_node (label : LabelArg) (props : Props) (merge_on : List String)
    (return_alias : String) (return_field : Option String) :
    Except GraphSchemaError (String × Props) :=
  match ensureLabel label with
  | .error e => .error e
  | .ok lbl =>
    match (SCHEMA_node lbl).validate_props props with
    | .error e => .error e
    | .ok _ =>
      if merge_on.isEmpty then .error .emptyMergeOn
      else
        match merge_on.find? (fun k => !(props.map Prod.fst).contains k) with
        | some k => .error (.missingMergeKey k)
        | Option.none =>
          .ok (mergeNodeText lbl (props.map Prod.fst) merge_on return_alias return_field,
               mergeNodeParams lbl props)

/-- Statement text of `build_link`: it reads the relationship property map only
through its key list, and does not read `start_uid`/`end_uid` at all. -/
def linkText (sl : NodeLabel) (rt : RelType) (el : NodeLabel) (relKeys : List String)
    (rAlias : String) (return_field : Option String) : String :=
  let set_rel := String.intercalate ",\n                "
    (relKeys.map (fun k => rAlias ++ "." ++ k ++ " = $rel_" ++ k))
  let ret_clause :=
    match return_field with
    | some f => "RETURN " ++ rAlias ++ "." ++ f ++ " AS " ++ f
    | Option.none => "RETURN " ++ rAlias
  "MATCH (a:" ++ sl.value ++ " \x7buid: $start_uid\x7d)\n"
    ++ "MATCH (b:" ++ el.value ++ " \x7buid: $end_uid\x7d)\n"
    ++ "MERGE (a)-[" ++ rAlias ++ ":" ++ rt.value ++ "]->(b)\n"
    ++ "ON CREATE SET " ++ rAlias ++ ".eid = coalesce($rel_eid, randomUUID()), "
    ++ rAlias ++ ".created_at = datetime()\n"
    ++ "SET " ++ rAlias ++ ".updated_at = datetime()"
    ++ (if !set_rel.isEmpty then ",\n    " ++ set_rel else "")
    ++ "\n" ++ ret_clause

/-- Python `d.get(k)`: `None` when the key is absent. -/
def pyGet (props : Props) (k : String) : PyVal :=
  (props.lookup k).getD PyVal.none

/-- Bound parameters of `build_link`: the two uids, the `rel_`-namespaced
property values, and a `rel_eid` entry defaulted from `rel_props.get("eid")`. -/
def linkParams (start_uid end_uid : String) (rel_props : Props) : Props :=
  let params := [("start_uid", PyVal.str start_uid), ("end_uid", PyVal.str end_uid)]
      ++ rel_props.map (fun kv => ("rel_" ++ kv.1, kv.2))
  if (params.map Prod.fst).contains "rel_eid" then params
  else params ++ [("rel_eid", pyGet rel_props "eid")]

/-- Translation of `build_link` (cypher_builder.py lines 91-130). The inner
call to module-level `validate_relationship` resolves already-ensured enums and
delegates to `SCHEMA.validate_relationship`. -/
def build_link (start_label : LabelArg) (rel_type : RelArg) (end_label : LabelArg)
    (start_uid end_uid : String) (rel_props : Option Props)
    (rAlias : String) (return_field : Option String) :
    Except GraphSchemaError (String × Props) :=
  match ensureLabel start_label with
  | .error e => .error e
  | .ok sl =>
    match ensureLabel end_label with
    | .error e => .error e
    | .ok el =>
      match ensureRel rel_type with
      | .error e => .error e
      | .ok rt =>
        let relProps := rel_props.getD []
        match (SCHEMA_rel rt).validate sl el relProps with
        | .error e => .error e
        | .ok _ =>
          .ok (linkText sl rt el (relProps.map Prod.fst) rAlias return_field,
               linkParams start_uid end_uid relProps)

/-! Translation of `repository/feature_repo.py`. A `_DictRepo` subclass is a
configuration triple; `_run` is abstracted as a `Runner` argument and each
method additionally returns the list of statements that reached storage. -/

/-- Python whitespace characters stripped by `str.strip()` (ASCII model). -/
def isPySpace (c : Char) : Bool :=
  c == ' ' || c == '\t' || c == '\n' || c == '\r' || c == '\x0b' || c == '\x0c'

/-- Python `s.strip()`. -/
def pyStrip (s : String) : String :=
  String.mk (((s.toList.dropWhile isPySpace).reverse.dropWhile isPySpace).reverse)

/-- Translation of `_strip_or_none` (utils/helpers.py). -/
def stripOrNone : Option String → Option String
  | some s => some (pyStrip s)
  | Option.none => Option.none

/-- Class attributes of a concrete `_DictRepo` subclass. -/
structure RepoCfg where
  label : NodeLabel
  key_field : String
  rel_type : RelType
deriving DecidableEq, Repr

def SkillManagement : RepoCfg := ⟨.Skill, "name", .HAS_SKILL⟩

def ProjectManagement : RepoCfg := ⟨.Project, "name", .WORKED_ON⟩

def LanguageManagement : RepoCfg := ⟨.Language, "name", .SPEAKS⟩

def JobTitleManagement : RepoCfg := ⟨.JobTitle, "title", .HAS_TITLE⟩

def MajorManagement : RepoCfg := ⟨.Major, "name", .MAJORED_IN⟩

def UniversityManagement : RepoCfg := ⟨.University, "name", .GRADUATED_FROM⟩

/-- Concrete repositories declared in feature_repo.py, one per feature label. -/
def allRepos : List RepoCfg :=
  [SkillManagement, ProjectManagement, LanguageManagement,
   JobTitleManagement, MajorManagement, UniversityManagement]

/-- Errors raised by repository methods: `ValueError` for empty caller input,
`GraphSchemaError` from validation, `IndexError` from `rows[0][0]`. -/
inductive PyErr where
  | valueError (msg : String)
  | schemaError (e : GraphSchemaError)
  | indexError

/-- Abstract storage round-trip `_run(q, params) -> rows`. -/
abbrev Runner := String → Props → List (List PyVal)

/-- Result of a repository call: the returned value or raised error, paired
with the trace of statements that were handed to the storage runner. -/
abbrev RepoOutcome := Except PyErr PyVal × List (String × Props)

/-- Python `rows[0][0]`. -/
def firstCell (rows : List (List PyVal)) : Except PyErr PyVal :=
  match rows with
  | (v :: _) :: _ => .ok v
  | _ => .error .indexError

/-- Python truthiness of the optional `uid` argument of `upsert`. -/
def uidTruthy (uid : Option String) : Bool :=
  match uid with
  | some u => !u.isEmpty
  | Option.none => false

/-- Property map built by `_DictRepo.upsert` for the (already stripped,
nonempty) natural key: merge by `uid` when one was given, else by key field. -/
def upsertProps (cfg : RepoCfg) (n : String) (uid : Option String) : Props :=
  if uidTruthy uid then [("uid", .str (uid.getD "")), (cfg.key_field, .str n)]
  else [(cfg.key_field, .str n)]

/-- Merge keys chosen by `_DictRepo.upsert`. -/
def upsertMergeOn (cfg : RepoCfg) (uid : Option String) : List String :=
  if uidTruthy uid then ["uid"] else [cfg.key_field]

/-- Translation of `_DictRepo.upsert` (feature_repo.py lines 18-38). `name` of
`None` and the empty/whitespace string are both falsy after `_strip_or_none`;
`uid` participates only when truthy. -/
def DictRepo.upsert (cfg : RepoCfg) (run : Runner) (name : Option String)
    (uid : Option String) : RepoOutcome :=
  let stripped := stripOrNone name
  match stripped with
  | Option.none => (.error (.valueError "name must be non-empty"), [])
  | some n =>
    if n.isEmpty then (.error (.valueError "name must be non-empty"), [])
    else
      let props := upsertProps cfg n uid
      let merge_on := upsertMergeOn cfg uid
      match (SCHEMA_node cfg.label).validate_props props with
      | .error e => (.error (.schemaError e), [])
      | .ok _ =>
        match build_merge_node (.enum cfg.label) props merge_on "n" (some "uid") with
        | .error e => (.error (.schemaError e), [])
        | .ok (q, params) => (firstCell (run q params), [(q, params)])

/-- Translation of `_DictRepo.link_by_uids` (feature_repo.py lines 97-135). The
`if not cls.rel_type` guard never fires for the six concrete repositories, and
the trailing `if "rel_eid" not in params` re-check never fires because
`build_link` always inserts that parameter. -/
def DictRepo.link_by_uids (cfg : RepoCfg) (run : Runner) (candidate_uid feature_uid : String)
    (rel_props : Option Props) : RepoOutcome :=
  if candidate_uid.isEmpty || feature_uid.isEmpty then
    (.error (.valueError "candidate_uid and feature_uid must be non-empty"), [])
  else
    let relProps := rel_props.getD []
    match (SCHEMA_rel cfg.rel_type).validate .Candidate cfg.label relProps with
    | .error e => (.error (.schemaError e), [])
    | .ok _ =>
      match build_link (.enum .Candidate) (.enum cfg.rel_type) (.enum cfg.label)
          candidate_uid feature_uid (some relProps) "r" (some "eid") with
      | .error e => (.error (.schemaError e), [])
      | .ok (q, params) =>
        let params :=
          if (params.map Prod.fst).contains "rel_eid" then params
          else params ++ [("rel_eid", pyGet relProps "eid")]
        (firstCell (run q params), [(q, params)])

/-! Translation of `domains/relationships.py`. Floats are modelled by exact
rationals; neomodel bookkeeping fields (`eid`, timestamps, `save()`) carry no
logic and are omitted from the edge state. -/

/-- State of a `WeightEdge` instance: the two scored fields. -/
structure WeightEdge where
  weight : ℚ
  cost : ℚ
deriving DecidableEq, Repr

/-- Field defaults `weight = 1.0`, `cost = 1.0`. -/
def defaultWeightEdge : WeightEdge := ⟨1, 1⟩

/-- Translation of `WeightEdge.set_weight` (relationships.py lines 15-24):
clamp to `max(float(w), 0.0)`, then `cost = 1.0 / max(w, eps) if w > 0 else
1.0` with `eps = 1e-6`. -/
def WeightEdge.set_weight (_e : WeightEdge) (w : ℚ) : WeightEdge :=
  let eps : ℚ := 1 / 1000000
  let w := max w 0
  { weight := w, cost := if w > 0 then 1 / max w eps else 1 }

/-- State of an `UnweightEdge` instance: the stored `_weight` and `cost`. -/
structure UnweightEdge where
  _weight : ℚ
  cost : ℚ
deriving DecidableEq, Repr

/-- Field defaults `_weight = 1.0`, `cost = 1.0`. -/
def defaultUnweightEdge : UnweightEdge := ⟨1, 1⟩

/-- Property getter `UnweightEdge.weight` (relationships.py lines 33-35). -/
def UnweightEdge.weight (e : UnweightEdge) : ℚ := e._weight

/-- Property setter `UnweightEdge.weight` (relationships.py lines 37-39): the
body is a bare `return`, so the assignment leaves the instance unchanged. -/
def UnweightEdge.weightSet (e : UnweightEdge) (_v : ℚ) : UnweightEdge := e

/-! Embedding of the regex dialect used by `Studied.DEGREE_ALIASES`: literal
characters, alternation, `\s*`, `\s+` and the word-boundary assertion `\b`,
matched anywhere in the subject as `re.search` does. The matcher returns every
end position of a match starting at a given index, so search success agrees
with Python's backtracking engine on these patterns. Character classes are the
ASCII readings of `\s` and `\w`, which coincide with Python on the inputs the
aliases are applied to. -/

/-- Regular-expression syntax needed by the degree alias table. -/
inductive Re where
  | eps
  | lit (c : Char)
  | cls (p : Char → Bool)
  | starCls (p : Char → Bool)
  | wb
  | seq (a b : Re)
  | alt (a b : Re)

/-- Length of the run of class characters at the head of the list. -/
def clsRun (p : Char → Bool) : List Char → Nat
  | [] => 0
  | c :: rest => if p c then clsRun p rest + 1 else 0

/-- ASCII word character, the `\w` class on ASCII subjects. -/
def isWordChar (c : Char) : Bool := c.isAlphanum || c == '_'

/-- Presence of a word character at an index (out of range counts as none). -/
def wordAt (s : List Char) (i : Nat) : Bool :=
  match s.get? i with
  | some c => isWordChar c
  | Option.none => false

/-- Python `\b`: the positions where word-ness changes, including the edges. -/
def atWordBoundary (s : List Char) (i : Nat) : Bool :=
  let next := wordAt s i
  let prev := if i == 0 then false else wordAt s (i - 1)
  prev != next

/-- End positions of matches of `r` in `s` starting at index `i`. -/
def reEnds (s : List Char) : Re → Nat → List Nat
  | .eps, i => [i]
  | .lit c, i =>
    match s.get? i with
    | some c2 => if c2 == c then [i + 1] else []
    | Option.none => []
  | .cls p, i =>
    match s.get? i with
    | some c2 => if p c2 then [i + 1] else []
    | Option.none => []
  | .starCls p, i => (List.range (clsRun p (s.drop i) + 1)).map (fun n => i + n)
  | .wb, i => if atWordBoundary s i then [i] else []
  | .seq a b, i => (reEnds s a i).flatMap (fun j => reEnds s b j)
  | .alt a b, i => reEnds s a i ++ reEnds s b i

/-- Python `re.search(r, s)` truthiness: a match starts at some index. -/
def reSearch (r : Re) (s : List Char) : Bool :=
  (List.range (s.length + 1)).any (fun i => !(reEnds s r i).isEmpty)

/-- Concatenation of literal characters. -/
def litSeq (w : String) : Re :=
  w.toList.foldr (fun c acc => .seq (.lit c) acc) .eps

/-- Right-nested alternation of a nonempty pattern list. -/
def altList : List Re → Re
  | [] => .eps
  | [r] => r
  | r :: rest => .alt r (altList rest)

/-- Pattern `\s*`. -/
def wsStar : Re := .starCls isPySpace

/-- Pattern `\s+`. -/
def wsPlus : Re := .seq (.cls isPySpace) (.starCls isPySpace)

/-- Translation of `Studied.DEGREE_ALIASES` (relationships.py lines 49-60), an
insertion-ordered dict from pattern to canonical tier. -/
def DEGREE_ALIASES : List (Re × String) :=
  [(altList [.seq (litSeq "high") (.seq wsStar (litSeq "school")),
             litSeq "secondary", litSeq "hs diploma"], "high_school"),
   (altList [litSeq "certificate", litSeq "cert", litSeq "pgcert",
             .seq (litSeq "postgraduate") (.seq wsPlus (litSeq "certificate")),
             litSeq "pgdip",
             .seq (litSeq "postgraduate") (.seq wsPlus (litSeq "diploma"))], "diploma"),
   (.seq (altList (["associate", "aa", "as", "aas", "abdus", "abus", "afa", "ae"].map litSeq)) .wb,
    "associate"),
   (.seq (altList (["bachelor", "ba", "bs", "bsc", "b.s.", "b.a.", "beng", "barch",
                    "bed", "llb", "bn", "bsn", "bcs", "bfa", "bsw"].map litSeq)) .wb,
    "bachelor"),
   (altList (["honours", "honors", "hons"].map litSeq), "bachelor_honours"),
   (.seq (altList (["master", "ma", "ms", "msc", "m.s.", "m.a.", "meng", "med",
                    "msw", "mca", "mn", "msn"].map litSeq)) .wb,
    "master"),
   (.seq (litSeq "mphil") .wb, "mphil"),
   (.seq (altList (["mba", "mpp", "mpa", "mph", "llm", "march"].map litSeq)) .wb,
    "professional_master"),
   (.seq (altList (["phd", "dphil", "scd", "dsc"].map litSeq)) .wb, "phd"),
   (.seq (altList (["md", "jd", "do", "dds", "dmd", "pharmd", "dvm", "engd",
                    "dba", "edd", "drph"].map litSeq)) .wb,
    "professional_doctorate")]

/-- Translation of `Studied.DEGREE_SCORES` (relationships.py lines 42-47). -/
def DEGREE_SCORES : List (String × ℚ) :=
  [("high_school", 2), ("diploma", 3), ("associate", 4),
   ("bachelor", 6), ("bachelor_honours", 6.5),
   ("master", 8), ("mphil", 8.5), ("professional_master", 8.5),
   ("professional_doctorate", 9.5), ("phd", 10), ("unknown", 0)]

/-- Python `DEGREE_SCORES.get(canon, DEGREE_SCORES["unknown"])`. -/
def degreeScore (canon : String) : ℚ :=
  (DEGREE_SCORES.lookup canon).getD ((DEGREE_SCORES.lookup "unknown").getD 0)

/-- Normalization line of `degree_to_score`:
`deg.lower().strip().replace("'", "").replace("-", " ")` (ASCII lower-casing). -/
def normDegree (deg : String) : List Char :=
  let lowered := deg.toList.map Char.toLower
  let stripped := ((lowered.dropWhile isPySpace).reverse.dropWhile isPySpace).reverse
  let noApos := stripped.filter (fun c => c != '\'')
  noApos.map (fun c => if c == '-' then ' ' else c)

/-- Translation of `Studied.degree_to_score` (relationships.py lines 67-74):
falsy input scores "unknown", otherwise the first alias pattern found by
`re.search` over the normalized text wins, and no match scores "unknown". -/
def degree_to_score (deg : Option String) : ℚ :=
  match deg with
  | Option.none => degreeScore "unknown"
  | some d =>
    if d.isEmpty then degreeScore "unknown"
    else
      match DEGREE_ALIASES.find? (fun pc => reSearch pc.1 (normDegree d)) with
      | some pc => degreeScore pc.2
      | Option.none => degreeScore "unknown"

/-! Translation of `repository/match_repo.py`. -/

/-- Translation of `DEFAULT_WEIGHTS` (match_repo.py lines 27-34), keys in
insertion order. -/
def DEFAULT_WEIGHTS : List (String × ℚ) :=
  [("skills", 0.6), ("job_titles", 0.1), ("languages", 0.05),
   ("education", 0), ("keywords", 0), ("location", 0.05)]

/-- Python `base[k] = v` on a dict whose key `k` is already present. -/
def updAssoc (base : List (String × ℚ)) (k : String) (v : ℚ) : List (String × ℚ) :=
  base.map (fun p => if p.1 = k then (p.1, v) else p)

/-- Loop body of `_merge_weights`: `if k in base and v is not None: base[k] =
float(v)`. -/
def mergeStep (base : List (String × ℚ)) (kv : String × Option ℚ) : List (String × ℚ) :=
  match kv.2 with
  | some v => if (base.map Prod.fst).contains kv.1 then updAssoc base kv.1 v else base
  | Option.none => base

/-- Translation of `_merge_weights` (match_repo.py lines 196-203); `w` of
`None` or the empty dict is falsy and returns the copied defaults. -/
def merge_weights (w : Option (List (String × Option ℚ))) : List (String × ℚ) :=
  match w with
  | Option.none => DEFAULT_WEIGHTS
  | some l => if l.isEmpty then DEFAULT_WEIGHTS else l.foldl mergeStep DEFAULT_WEIGHTS

/-! Embedding of the candidate filter: the WHERE clause shared by
`_CYPHER_MATCH_AND_SCORE` (match_repo.py lines 229-269) and the
`query_candidates` statement (services/candidates.py lines 319-342), whose
must-have fragments are textually identical. Cypher evaluates WHERE under
three-valued logic and keeps only the rows where the clause is `true`. -/

/-- Cypher truth value. -/
inductive TV where
  | t
  | f
  | u
deriving DecidableEq, Repr

/-- Cypher `AND`. -/
def tvAnd : TV → TV → TV
  | .f, _ => .f
  | _, .f => .f
  | .t, .t => .t
  | _, _ => .u

/-- Cypher `OR`. -/
def tvOr : TV → TV → TV
  | .t, _ => .t
  | _, .t => .t
  | .f, .f => .f
  | _, _ => .u

/-- Lift of a two-valued condition. -/
def tvOfBool (b : Bool) : TV := if b then .t else .f

/-- Cypher `<=` over possibly-null numbers. -/
def tvLe (a b : Option ℚ) : TV :=
  match a, b with
  | some x, some y => tvOfBool (decide (x ≤ y))
  | _, _ => .u

/-- Cypher `=` over possibly-null booleans. -/
def tvEqB (a b : Option Bool) : TV :=
  match a, b with
  | some x, some y => tvOfBool (x == y)
  | _, _ => .u

/-- Cypher `=` over possibly-null strings. -/
def tvEqS (a b : Option String) : TV :=
  match a, b with
  | some x, some y => tvOfBool (x == y)
  | _, _ => .u

/-- Cypher `x IN list`: false on the empty list, null once a null is involved
without a definite hit. -/
def tvIn (x : Option String) : List (Option String) → TV
  | [] => .f
  | y :: rest => tvOr (tvEqS x y) (tvIn x rest)

/-- Cypher `coalesce` of two possibly-null values. -/
def cypCoalesce (a b : Option ℚ) : Option ℚ :=
  match a with
  | some x => some x
  | Option.none => b

/-- Cypher `toLower` (ASCII model, matching the stored ASCII names). -/
def cypToLower (s : String) : String := String.mk (s.toList.map Char.toLower)

/-- One `HAS_SKILL` edge reachable from the candidate, with the properties the
filter reads. -/
structure SkillEdge where
  name : String
  level_num : Option Int
  years : Option ℚ
deriving DecidableEq, Repr

/-- One `SPEAKS` edge reachable from the candidate. -/
structure LangEdge where
  name : String
  level_num : Option Int
deriving DecidableEq, Repr

/-- Stored candidate node together with its edges, as the filter reads them. -/
structure CandidateNode where
  remote_ok : Option Bool
  salary_max : Option ℚ
  salary_expectation_max : Option ℚ
  location : Option String
  titles : List String
  skills : List SkillEdge
  langs : List LangEdge
deriving DecidableEq, Repr

/-- Normalized must-have skill item (`name` through `_lc`, levels through
`_map_level`, `min_years` through `_num`). -/
structure MustSkill where
  name : Option String
  min_level_num : Option Int
  min_years : Option ℚ
deriving DecidableEq, Repr

/-- Normalized must-have language item. -/
structure MustLang where
  name : Option String
  min_level_num : Option Int
deriving DecidableEq, Repr

/-- Bound parameters consumed by the must-have WHERE clause. -/
structure MatchParams where
  mustSkills : List MustSkill
  mustLangs : List MustLang
  mustTitles : List (Option String)
  mustLocations : List (Option String)
  remoteOk : Option Bool
  salaryMax : Option ℚ
deriving DecidableEq, Repr

/-- Conjunct `$remoteOk IS NULL OR c.remote_ok = $remoteOk`. -/
def remoteCond (p : MatchParams) (c : CandidateNode) : TV :=
  tvOr (tvOfBool p.remoteOk.isNone) (tvEqB c.remote_ok p.remoteOk)

/-- Conjunct `$salaryMax IS NULL OR coalesce(c.salary_max,
c.salary_expectation.max) <= $salaryMax`. -/
def salaryCond (p : MatchParams) (c : CandidateNode) : TV :=
  tvOr (tvOfBool p.salaryMax.isNone)
    (tvLe (cypCoalesce c.salary_max c.salary_expectation_max) p.salaryMax)

/-- Conjunct `size($mustTitles) = 0 OR EXISTS { ... toLower(jt.title) IN
$mustTitles }`. -/
def titleCond (p : MatchParams) (c : CandidateNode) : TV :=
  tvOr (tvOfBool p.mustTitles.isEmpty)
    (tvOfBool (c.titles.any (fun t => tvIn (some (cypToLower t)) p.mustTitles == TV.t)))

/-- Conjunct `size($mustLocations) = 0 OR toLower(coalesce(c.location, "")) IN
$mustLocations`. -/
def locationCond (p : MatchParams) (c : CandidateNode) : TV :=
  tvOr (tvOfBool p.mustLocations.isEmpty)
    (tvIn (some (cypToLower (c.location.getD ""))) p.mustLocations)

/-- WHERE body of the language EXISTS subquery. -/
def langEdgeHit (req : MustLang) (lg : LangEdge) : Bool :=
  tvAnd (tvEqS (some (cypToLower lg.name)) req.name)
    (tvOfBool (decide (req.min_level_num.getD 0 ≤ lg.level_num.getD 0))) == TV.t

/-- Conjunct `size($mustLangs) = 0 OR ALL(req IN $mustLangs WHERE EXISTS
{...})`. -/
def langCond (p : MatchParams) (c : CandidateNode) : TV :=
  tvOr (tvOfBool p.mustLangs.isEmpty)
    (tvOfBool (p.mustLangs.all (fun req => c.langs.any (fun lg => langEdgeHit req lg))))

/-- WHERE body of the skill EXISTS subquery. -/
def skillEdgeHit (ms : MustSkill) (hs : SkillEdge) : Bool :=
  tvAnd (tvEqS (some (cypToLower hs.name)) ms.name)
    (tvAnd (tvOfBool (decide (ms.min_level_num.getD 0 ≤ hs.level_num.getD 0)))
      (tvOfBool (decide (ms.min_years.getD 0 ≤ hs.years.getD 0)))) == TV.t

/-- Conjunct `size($mustSkills) = 0 OR ALL(ms IN $mustSkills WHERE EXISTS
{...})`. -/
def skillCond (p : MatchParams) (c : CandidateNode) : TV :=
  tvOr (tvOfBool p.mustSkills.isEmpty)
    (tvOfBool (p.mustSkills.all (fun ms => c.skills.any (fun hs => skillEdgeHit ms hs))))

/-- Full must-have WHERE clause, conjuncts in source order. -/
def candidateWhere (p : MatchParams) (c : CandidateNode) : TV :=
  tvAnd (tvAnd (tvAnd (tvAnd (tvAnd (remoteCond p c) (salaryCond p c))
    (titleCond p c)) (locationCond p c)) (langCond p c)) (skillCond p c)

/-- Row-retention semantics of WHERE: the candidate survives the filter exactly
when the clause evaluates to `true`. -/
def passesFilter (p : MatchParams) (c : CandidateNode) : Bool :=
  candidateWhere p c == TV.t

/-- Parameters with no must-have constraint at all. -/
def emptyMatchParams : MatchParams :=
  { mustSkills := [], mustLangs := [], mustTitles := [], mustLocations := [],
    remoteOk := Option.none, salaryMax := Option.none }

/-! Theorems. -/

/-- Conjunction law of Cypher `AND`: only `true AND true` is `true`. -/
theorem tvAnd_eq_t_iff (a b : TV) : tvAnd a b = TV.t ↔ a = TV.t ∧ b = TV.t := by
  cases a <;> cases b <;> simp [tvAnd]

/-- C7: `UnweightEdge.weight` reads the stored `_weight`, defaults to 1.0, and
its setter discards the assigned value entirely, so any external mutation
attempt leaves the edge (and in particular its weight) unchanged. -/
theorem unweight_edge_weight_readonly :
    (∀ (e : UnweightEdge) (v : ℚ),
        UnweightEdge.weightSet e v = e ∧
        (UnweightEdge.weightSet e v).weight = e.weight ∧
        UnweightEdge.weight e = e._weight) ∧
    defaultUnweightEdge.weight = 1 :=
  ⟨fun _ _ => ⟨rfl, rfl, rfl⟩, rfl⟩

/-- C3 counterexample: at `w = 0` the code sets `cost = 1.0`, while the claimed
identity `cost = 1/max(weight, 1e-6)` would demand `cost = 10^6`, so the
claimed identity fails on `set_weight(0.0)`. -/
theorem set_weight_cost_formula_fails_at_zero :
    (WeightEdge.set_weight defaultWeightEdge 0).cost ≠
      1 / max (WeightEdge.set_weight defaultWeightEdge 0).weight (1 / 1000000) := by
  norm_num [WeightEdge.set_weight, defaultWeightEdge]

/-- C3 amended: `set_weight(w)` stores `weight = max(w, 0)` (hence weight is
nonnegative), and derives `cost = 1/max(weight, 1e-6)` when the clamped weight
is positive but `cost = 1.0` when it is zero; in particular `set_weight(2.0)`
yields `cost = 0.5` and `set_weight(0.0)` yields `cost = 1.0`. -/
theorem set_weight_spec (e : WeightEdge) (w : ℚ) :
    (WeightEdge.set_weight e w).weight = max w 0 ∧
    0 ≤ (WeightEdge.set_weight e w).weight ∧
    (0 < w → (WeightEdge.set_weight e w).cost = 1 / max w (1 / 1000000)) ∧
    (w ≤ 0 → (WeightEdge.set_weight e w).cost = 1) ∧
    (WeightEdge.set_weight e 2).cost = 1 / 2 ∧
    (WeightEdge.set_weight e 0).cost = 1 := by
  refine ⟨rfl, le_max_right w 0, ?_, ?_, by norm_num [WeightEdge.set_weight], by
    norm_num [WeightEdge.set_weight]⟩
  · intro hw
    have hmax : max w 0 = w := max_eq_left hw.le
    simp [WeightEdge.set_weight, hmax, hw]
  · intro hw
    have hmax : max w 0 = 0 := max_eq_right hw
    simp [WeightEdge.set_weight, hmax]

/-- C3 witness: the amended theorem applied at `w = 2` on the default edge. -/
theorem set_weight_spec_witness :
    (0 : ℚ) < 2 ∧
      (WeightEdge.set_weight defaultWeightEdge 2).cost = 1 / max 2 ((1 : ℚ) / 1000000) :=
  ⟨by norm_num, (set_weight_spec defaultWeightEdge 2).2.2.1 (by norm_num)⟩

/-- C2: evaluation of `degree_to_score` on the spec's inputs. `"MSc"` scores
the master tier 8.0 and falsy or unmatched inputs score 0.0 as claimed, but
`"M.S."` scores 0.0: the compiled alias `(...|m\.s\.|...)\b` demands a word
character right after the final dot, which is absent at end of input, so the
master alias never fires on the plain form `"M.S."`. -/
theorem degree_to_score_ms_bug :
    degree_to_score (some "MSc") = 8 ∧
    degree_to_score (some "M.S.") = 0 ∧
    degree_to_score Option.none = 0 ∧
    degree_to_score (some "") = 0 ∧
    degree_to_score (some "xyzzy") = 0 := by
  refine ⟨by decide, by decide, rfl, rfl, by decide⟩

/-- C8: a natural key that is `None` or blank after trimming makes `upsert`
raise its `ValueError` with an empty storage trace, and a blank candidate or
feature uid makes `link_by_uids` raise its `ValueError` with an empty storage
trace: the error is surfaced before any storage call. -/
theorem empty_key_empty_id (cfg : RepoCfg) (run : Runner) :
    (∀ (name : Option String) (uid : Option String),
        (stripOrNone name = Option.none ∨ stripOrNone name = some "") →
        DictRepo.upsert cfg run name uid =
          (.error (.valueError "name must be non-empty"), [])) ∧
    (∀ (cand feat : String) (rp : Option Props),
        (cand = "" ∨ feat = "") →
        DictRepo.link_by_uids cfg run cand feat rp =
          (.error (.valueError "candidate_uid and feature_uid must be non-empty"), [])) := by
  have he : ("" : String).isEmpty = true := rfl
  constructor
  · intro name uid h
    rcases h with h | h
    · simp [DictRepo.upsert, h]
    · simp [DictRepo.upsert, h, he]
  · intro cand feat rp h
    rcases h with h | h <;> subst h <;> simp [DictRepo.link_by_uids, he]

/-- C6: schema validation precedes every storage round-trip. For any
repository configuration, when the relationship property map fails schema
validation, `link_by_uids` surfaces that `GraphSchemaError` with an empty
storage trace (given nonblank uids, which are checked first), and when the
property map `upsert` builds fails node validation, `upsert` surfaces that
`GraphSchemaError` with an empty storage trace (given a nonblank key). In
particular no statement reaches the runner and no partial write can happen. -/
theorem schema_check_precedes_io :
    (∀ (cfg : RepoCfg) (run : Runner) (cand feat : String) (relProps : Props)
        (e : GraphSchemaError),
        cand.isEmpty = false → feat.isEmpty = false →
        (SCHEMA_rel cfg.rel_type).validate .Candidate cfg.label relProps = .error e →
        DictRepo.link_by_uids cfg run cand feat (some relProps) =
          (.error (.schemaError e), [])) ∧
    (∀ (cfg : RepoCfg) (run : Runner) (name uid : Option String) (n : String)
        (e : GraphSchemaError),
        stripOrNone name = some n → n.isEmpty = false →
        (SCHEMA_node cfg.label).validate_props (upsertProps cfg n uid) = .error e →
        DictRepo.upsert cfg run name uid = (.error (.schemaError e), [])) := by
  constructor
  · intro cfg run cand feat relProps e hc hf hv
    simp [DictRepo.link_by_uids, hc, hf, hv]
  · intro cfg run name uid n e hs hn hv
    simp [DictRepo.upsert, hs, hn, hv]

/-- C6 witness: an undeclared relationship property on the skill repository,
and an upsert configured with an undeclared key field; both surface the
schema error with an empty storage trace. -/
theorem schema_check_precedes_io_witness :
    ("cand-1" : String).isEmpty = false ∧
    (SCHEMA_rel RelType.HAS_SKILL).validate .Candidate .Skill [("bogus", PyVal.str "x")] =
      .error (.unknownProperty "HAS_SKILL" "bogus") ∧
    DictRepo.link_by_uids SkillManagement (fun _ _ => [[PyVal.str "e-1"]])
      "cand-1" "skill-1" (some [("bogus", PyVal.str "x")]) =
      (.error (.schemaError (.unknownProperty "HAS_SKILL" "bogus")), []) ∧
    DictRepo.upsert ⟨.Skill, "bogus_key", .HAS_SKILL⟩ (fun _ _ => [[PyVal.str "u-1"]])
      (some "Python") Option.none =
      (.error (.schemaError (.unknownProperty "Skill" "bogus_key")), []) := by
  refine ⟨rfl, rfl, ?_, ?_⟩
  · exact schema_check_precedes_io.1 SkillManagement (fun _ _ => [[PyVal.str "e-1"]])
      "cand-1" "skill-1" [("bogus", PyVal.str "x")] (.unknownProperty "HAS_SKILL" "bogus")
      rfl rfl rfl
  · exact schema_check_precedes_io.2 ⟨.Skill, "bogus_key", .HAS_SKILL⟩
      (fun _ _ => [[PyVal.str "u-1"]]) (some "Python") Option.none "Python"
      (.unknownProperty "Skill" "bogus_key") rfl rfl rfl

/-- Successful `build_merge_node` calls resolve the label and return the text
and parameters computed by `mergeNodeText` and `mergeNodeParams`. -/
theorem build_merge_node_ok_inv {label : LabelArg} {props : Props}
    {merge_on : List String} {al : String} {rf : Option String} {q : String} {o : Props}
    (h : build_merge_node label props merge_on al rf = .ok (q, o)) :
    ∃ lbl, ensureLabel label = .ok lbl ∧
      q = mergeNodeText lbl (props.map Prod.fst) merge_on al rf ∧
      o = mergeNodeParams lbl props := by
  unfold build_merge_node at h
  cases hl : ensureLabel label with
  | error e => rw [hl] at h; simp at h
  | ok lbl =>
    rw [hl] at h
    dsimp only at h
    cases hv : (SCHEMA_node lbl).validate_props props with
    | error e => rw [hv] at h; simp at h
    | ok u =>
      rw [hv] at h
      by_cases hm : merge_on.isEmpty
      · simp [hm] at h
      · simp only [hm, if_false, Bool.false_eq_true] at h
        cases hf : merge_on.find? (fun k => !(props.map Prod.fst).contains k) with
        | some k => rw [hf] at h; simp at h
        | none =>
          rw [hf] at h
          simp only [Except.ok.injEq, Prod.mk.injEq] at h
          exact ⟨lbl, rfl, h.1.symm, h.2.symm⟩

/-- Successful `build_link` calls resolve the three tokens and return the text
and parameters computed by `linkText` and `linkParams`. -/
theorem build_link_ok_inv {slA : LabelArg} {rtA : RelArg} {elA : LabelArg}
    {u v : String} {rp : Props} {al : String} {rf : Option String} {q : String} {o : Props}
    (h : build_link slA rtA elA u v (some rp) al rf = .ok (q, o)) :
    ∃ sl el rt, ensureLabel slA = .ok sl ∧ ensureLabel elA = .ok el ∧ ensureRel rtA = .ok rt ∧
      q = linkText sl rt el (rp.map Prod.fst) al rf ∧
      o = linkParams u v rp := by
  unfold build_link at h
  cases hs : ensureLabel slA with
  | error e => rw [hs] at h; simp at h
  | ok sl =>
    rw [hs] at h
    dsimp only at h
    cases he : ensureLabel elA with
    | error e => rw [he] at h; simp at h
    | ok el =>
      rw [he] at h
      dsimp only at h
      cases hr : ensureRel rtA with
      | error e => rw [hr] at h; simp at h
      | ok rt =>
        rw [hr] at h
        dsimp only [Option.getD_some] at h
        cases hv : (SCHEMA_rel rt).validate sl el rp with
        | error e => rw [hv] at h; simp at h
        | ok w =>
          rw [hv] at h
          dsimp only at h
          simp only [Except.ok.injEq, Prod.mk.injEq] at h
          exact ⟨sl, el, rt, rfl, rfl, rfl, h.1.symm, h.2.symm⟩

/-- Parameter maps of `build_link` carry the two uids under `start_uid` and
`end_uid` and every relationship property value under its `rel_`-scoped key. -/
theorem linkParams_content (u v : String) (rp : Props) :
    (linkParams u v rp).lookup "start_uid" = some (.str u) ∧
    (linkParams u v rp).lookup "end_uid" = some (.str v) ∧
    ∀ kv ∈ rp, ("rel_" ++ kv.1, kv.2) ∈ linkParams u v rp := by
  unfold linkParams
  dsimp only
  split
  · refine ⟨by simp [List.lookup], by simp [List.lookup], ?_⟩
    intro kv hkv
    simp only [List.cons_append, List.nil_append, List.mem_cons]
    exact Or.inr (Or.inr (List.mem_map_of_mem _ hkv))
  · refine ⟨by simp [List.lookup], by simp [List.lookup], ?_⟩
    intro kv hkv
    simp only [List.cons_append, List.nil_append, List.mem_cons, List.mem_append]
    exact Or.inr (Or.inr (Or.inl (List.mem_map_of_mem _ hkv)))

/-- C4: the builders are injection-safe. The statement text returned by
`build_merge_node` depends on the property map only through its key list, the
text returned by `build_link` is likewise independent of the uids and of the
relationship property values, every caller-supplied value reaches only the
bound-parameter map (uids under `start_uid`/`end_uid`, relationship values
under `rel_` keys, node values verbatim), and a label or relationship-type
string outside the closed enum catalogs makes the builders raise
`GraphSchemaError` instead of interpolating it. -/
theorem builder_injection_safety :
    (∀ (label : LabelArg) (p1 p2 : Props) (merge_on : List String) (al : String)
        (rf : Option String) (q1 q2 : String) (o1 o2 : Props),
        p1.map Prod.fst = p2.map Prod.fst →
        build_merge_node label p1 merge_on al rf = .ok (q1, o1) →
        build_merge_node label p2 merge_on al rf = .ok (q2, o2) →
        q1 = q2) ∧
    (∀ (slA : LabelArg) (rtA : RelArg) (elA : LabelArg) (u1 v1 u2 v2 : String)
        (rp1 rp2 : Props) (al : String) (rf : Option String) (q1 q2 : String) (o1 o2 : Props),
        rp1.map Prod.fst = rp2.map Prod.fst →
        build_link slA rtA elA u1 v1 (some rp1) al rf = .ok (q1, o1) →
        build_link slA rtA elA u2 v2 (some rp2) al rf = .ok (q2, o2) →
        q1 = q2) ∧
    (∀ (slA : LabelArg) (rtA : RelArg) (elA : LabelArg) (u v : String) (rp : Props)
        (al : String) (rf : Option String) (q : String) (o : Props),
        build_link slA rtA elA u v (some rp) al rf = .ok (q, o) →
        o.lookup "start_uid" = some (.str u) ∧ o.lookup "end_uid" = some (.str v) ∧
        ∀ kv ∈ rp, ("rel_" ++ kv.1, kv.2) ∈ o) ∧
    (∀ (label : LabelArg) (props : Props) (merge_on : List String) (al : String)
        (rf : Option String) (q : String) (o : Props),
        build_merge_node label props merge_on al rf = .ok (q, o) →
        ∀ kv ∈ props, kv ∈ o) ∧
    (∀ (s : String), nodeLabelOfString s = Option.none →
        ∀ (props : Props) (merge_on : List String) (al : String) (rf : Option String),
        build_merge_node (.str s) props merge_on al rf = .error (.unknownLabel s)) ∧
    (∀ (s : String), relTypeOfString s = Option.none →
        ∀ (sl el : NodeLabel) (u v : String) (rp : Option Props) (al : String)
          (rf : Option String),
        build_link (.enum sl) (.str s) (.enum el) u v rp al rf =
          .error (.unknownRelType s)) := by
  refine ⟨?_, ?_, ?_, ?_, ?_, ?_⟩
  · intro label p1 p2 merge_on al rf q1 q2 o1 o2 hk h1 h2
    obtain ⟨lbl1, hl1, hq1, -⟩ := build_merge_node_ok_inv h1
    obtain ⟨lbl2, hl2, hq2, -⟩ := build_merge_node_ok_inv h2
    obtain rfl : lbl1 = lbl2 := Except.ok.inj (hl1.symm.trans hl2)
    rw [hq1, hq2, hk]
  · intro slA rtA elA u1 v1 u2 v2 rp1 rp2 al rf q1 q2 o1 o2 hk h1 h2
    obtain ⟨sl1, el1, rt1, hs1, he1, hr1, hq1, -⟩ := build_link_ok_inv h1
    obtain ⟨sl2, el2, rt2, hs2, he2, hr2, hq2, -⟩ := build_link_ok_inv h2
    obtain rfl : sl1 = sl2 := Except.ok.inj (hs1.symm.trans hs2)
    obtain rfl : el1 = el2 := Except.ok.inj (he1.symm.trans he2)
    obtain rfl : rt1 = rt2 := Except.ok.inj (hr1.symm.trans hr2)
    rw [hq1, hq2, hk]
  · intro slA rtA elA u v rp al rf q o h
    obtain ⟨sl, el, rt, -, -, -, -, ho⟩ := build_link_ok_inv h
    rw [ho]
    exact linkParams_content u v rp
  · intro label props merge_on al rf q o h kv hkv
    obtain ⟨lbl, -, -, ho⟩ := build_merge_node_ok_inv h
    rw [ho]
    exact List.mem_append_left _ hkv
  · intro s hs props merge_on al rf
    simp [build_merge_node, ensureLabel, hs]
  · intro s hs sl el u v rp al rf
    simp [build_link, ensureLabel, ensureRel, hs]

/-- C4 witness: two upserts differing only in the bound value produce the same
statement text, a concrete link call exposes its uid under `start_uid`, and a
non-catalog label string is rejected. -/
theorem builder_injection_safety_witness :
    (mergeNodeText .Skill (([("name", PyVal.str "Python")] : Props).map Prod.fst)
        ["name"] "n" (some "uid") =
      mergeNodeText .Skill (([("name", PyVal.str "Rust")] : Props).map Prod.fst)
        ["name"] "n" (some "uid")) ∧
    (linkParams "cand-1" "skill-1" []).lookup "start_uid" = some (.str "cand-1") ∧
    build_merge_node (.str "NotALabel") [] [] "n" Option.none =
      .error (.unknownLabel "NotALabel") := by
  refine ⟨?_, ?_, ?_⟩
  · exact builder_injection_safety.1 (.enum .Skill)
      [("name", PyVal.str "Python")] [("name", PyVal.str "Rust")]
      ["name"] "n" (some "uid") _ _ _ _ rfl rfl rfl
  · exact (builder_injection_safety.2.2.1 (.enum .Candidate) (.enum .HAS_SKILL)
      (.enum .Skill) "cand-1" "skill-1" [] "r" (some "eid") _ _ rfl).1
  · exact builder_injection_safety.2.2.2.2.1 "NotALabel" rfl [] [] "n" Option.none

/-- Failure condition of the per-entry type check: a non-`None` value whose
runtime type misses the declared tuple of its (declared) property. -/
theorem typeOk_eq_false_iff (ps : List (String × PropertySpec)) (kv : String × PyVal) :
    typeOk ps kv = false ↔
      kv.2 ≠ PyVal.none ∧ ∃ spec, ps.lookup kv.1 = some spec ∧
        isinstAny kv.2 spec.py_type = false := by
  obtain ⟨k, v⟩ := kv
  cases v
  case none => simp [typeOk]
  all_goals
    simp only [typeOk, ne_eq, reduceCtorEq, not_false_eq_true, true_and]
    cases h : ps.lookup k <;> simp [h]

/-- C10: `validate_props` checks requiredness by key presence only and skips
the type check for `None` values, so any property map whose keys are all
declared, whose key set covers every required property, and whose values are
all `None` passes validation - a required property present as `None` is
accepted. -/
theorem required_none_passes (s : NodeSchema) (props : Props)
    (hnone : ∀ kv ∈ props, kv.2 = PyVal.none)
    (hallow : ∀ kv ∈ props, kv.1 ∈ s.properties.map Prod.fst)
    (hreq : ∀ pr ∈ s.properties, pr.2.required = true → pr.1 ∈ props.map Prod.fst) :
    s.validate_props props = .ok () := by
  have h1 : (props.map Prod.fst).filter
      (fun k => !(s.properties.map Prod.fst).contains k) = [] := by
    refine List.filter_eq_nil_iff.mpr ?_
    intro k hk
    obtain ⟨kv, hkv, rfl⟩ := List.mem_map.mp hk
    simp [hallow kv hkv]
  have h2 : (s.properties.filter
      (fun p => p.2.required && !(props.map Prod.fst).contains p.1)).map Prod.fst = [] := by
    rw [List.map_eq_nil_iff]
    refine List.filter_eq_nil_iff.mpr ?_
    intro pr hpr
    simp only [Bool.and_eq_true, Bool.not_eq_true', not_and]
    intro hr
    simp [hreq pr hpr hr]
  have h3 : props.find? (fun kv => !typeOk s.properties kv) = Option.none := by
    refine List.find?_eq_none.mpr ?_
    intro kv hkv
    obtain ⟨k, v⟩ := kv
    have hv := hnone (k, v) hkv
    simp only at hv
    subst hv
    simp [typeOk]
  unfold NodeSchema.validate_props
  dsimp only
  simp only [h1, h2, h3, List.isEmpty_nil, if_true]

/-- C10 witness: the Candidate label requires `name : str`, and the map with
`name` present but `None` is accepted. -/
theorem required_none_passes_witness :
    (SCHEMA_node NodeLabel.Candidate).validate_props [("name", PyVal.none)] = .ok () := by
  refine required_none_passes _ _ ?_ ?_ ?_
  · intro kv h
    rcases List.mem_singleton.mp h with rfl
    rfl
  · intro kv h
    rcases List.mem_singleton.mp h with rfl
    decide
  · decide

/-- Error characterization of `NodeSchema.validate_props`: it rejects exactly
the maps with an undeclared key, an absent required key, or a present
non-`None` value outside its declared type tuple. -/
theorem validate_props_error_iff (s : NodeSchema) (props : Props) :
    (∃ e, s.validate_props props = .error e) ↔
      ((∃ k ∈ props.map Prod.fst, k ∉ s.properties.map Prod.fst) ∨
       (∃ pr ∈ s.properties, pr.2.required = true ∧ pr.1 ∉ props.map Prod.fst) ∨
       (∃ kv ∈ props, ∃ spec, s.properties.lookup kv.1 = some spec ∧
          kv.2 ≠ PyVal.none ∧ isinstAny kv.2 spec.py_type = false)) := by
  by_cases h1 : (props.map Prod.fst).filter
      (fun k => !(s.properties.map Prod.fst).contains k) = []
  · by_cases h2 : (s.properties.filter
        (fun p => p.2.required && !(props.map Prod.fst).contains p.1)).map Prod.fst = []
    · cases h3 : props.find? (fun kv => !typeOk s.properties kv) with
      | some kv =>
        apply iff_of_true
        · refine ⟨GraphSchemaError.typeMismatch s.label.value kv.1, ?_⟩
          unfold NodeSchema.validate_props
          dsimp only
          simp only [h1, h2, h3, List.isEmpty_nil, if_true]
        · refine Or.inr (Or.inr ⟨kv, List.mem_of_find?_eq_some h3, ?_⟩)
          have hp := List.find?_some h3
          have ht : typeOk s.properties kv = false := by simpa using hp
          obtain ⟨hne, spec, hsp, hinst⟩ := (typeOk_eq_false_iff _ _).mp ht
          exact ⟨spec, hsp, hne, hinst⟩
      | none =>
        apply iff_of_false
        · rintro ⟨e, he⟩
          unfold NodeSchema.validate_props at he
          dsimp only at he
          simp only [h1, h2, h3, List.isEmpty_nil, if_true] at he
          simp at he
        · rintro (⟨k, hk, hnk⟩ | ⟨pr, hpr, hrq, hnin⟩ | ⟨kv, hkv, spec, hsp, hne, hinst⟩)
          · have := List.filter_eq_nil_iff.mp h1 k hk
            simp at this
            obtain ⟨x, hx⟩ := this
            exact hnk (List.mem_map.mpr ⟨(k, x), hx, rfl⟩)
          · have := List.filter_eq_nil_iff.mp (List.map_eq_nil_iff.mp h2) pr hpr
            simp [hrq] at this
            obtain ⟨x, hx⟩ := this
            exact hnin (List.mem_map.mpr ⟨(pr.1, x), hx, rfl⟩)
          · have := List.find?_eq_none.mp h3 kv hkv
            have ht : typeOk s.properties kv = true := by simpa using this
            have hf : typeOk s.properties kv = false :=
              (typeOk_eq_false_iff _ _).mpr ⟨hne, spec, hsp, hinst⟩
            rw [ht] at hf
            exact absurd hf (by simp)
    · apply iff_of_true
      · refine ⟨GraphSchemaError.missingRequired s.label.value (String.intercalate ", "
          ((s.properties.filter
            (fun p => p.2.required && !(props.map Prod.fst).contains p.1)).map Prod.fst)), ?_⟩
        unfold NodeSchema.validate_props
        dsimp only
        have h2' : ((s.properties.filter
            (fun p => p.2.required && !(props.map Prod.fst).contains p.1)).map
              Prod.fst).isEmpty = false := by
          simpa using h2
        simp only [h1, List.isEmpty_nil, if_true, h2', Bool.false_eq_true, if_false]
      · refine Or.inr (Or.inl ?_)
        have hne : s.properties.filter
            (fun p => p.2.required && !(props.map Prod.fst).contains p.1) ≠ [] := by
          intro hcon
          exact h2 (by rw [hcon]; rfl)
        obtain ⟨pr, hpr⟩ := List.exists_mem_of_ne_nil _ hne
        have hmem := List.mem_filter.mp hpr
        refine ⟨pr, hmem.1, ?_⟩
        have hpred := hmem.2
        simpa using hpred
  · apply iff_of_true
    · refine ⟨GraphSchemaError.unknownProperty s.label.value (String.intercalate ", "
        ((props.map Prod.fst).filter
          (fun k => !(s.properties.map Prod.fst).contains k))), ?_⟩
      unfold NodeSchema.validate_props
      dsimp only
      have h1' : ((props.map Prod.fst).filter
          (fun k => !(s.properties.map Prod.fst).contains k)).isEmpty = false := by
        simpa using h1
      simp only [h1', Bool.false_eq_true, if_false]
    · refine Or.inl ?_
      obtain ⟨k, hk⟩ := List.exists_mem_of_ne_nil _ h1
      have hmem := List.mem_filter.mp hk
      refine ⟨k, hmem.1, ?_⟩
      simpa using hmem.2

/-- Error characterization of `RelationshipSchema.validate`: it rejects
exactly a wrong endpoint pair, an undeclared key, or a present non-`None`
value outside its declared type tuple (there is no required-property check for
relationships). -/
theorem validate_rel_error_iff (s : RelationshipSchema) (sl el : NodeLabel) (props : Props) :
    (∃ e, s.validate sl el props = .error e) ↔
      ((sl ≠ s.start_label ∨ el ≠ s.end_label) ∨
       (∃ k ∈ props.map Prod.fst, k ∉ s.properties.map Prod.fst) ∨
       (∃ kv ∈ props, ∃ spec, s.properties.lookup kv.1 = some spec ∧
          kv.2 ≠ PyVal.none ∧ isinstAny kv.2 spec.py_type = false)) := by
  by_cases hep : sl ≠ s.start_label ∨ el ≠ s.end_label
  · apply iff_of_true
    · exact ⟨_, by unfold RelationshipSchema.validate; rw [if_pos hep]⟩
    · exact Or.inl hep
  · by_cases h1 : (props.map Prod.fst).filter
        (fun k => !(s.properties.map Prod.fst).contains k) = []
    · cases h3 : props.find? (fun kv => !typeOk s.properties kv) with
      | some kv =>
        apply iff_of_true
        · refine ⟨GraphSchemaError.typeMismatch s.rel_type.value kv.1, ?_⟩
          unfold RelationshipSchema.validate
          rw [if_neg hep]
          dsimp only
          simp only [h1, h3, List.isEmpty_nil, if_true]
        · refine Or.inr (Or.inr ⟨kv, List.mem_of_find?_eq_some h3, ?_⟩)
          have hp := List.find?_some h3
          have ht : typeOk s.properties kv = false := by simpa using hp
          obtain ⟨hne, spec, hsp, hinst⟩ := (typeOk_eq_false_iff _ _).mp ht
          exact ⟨spec, hsp, hne, hinst⟩
      | none =>
        apply iff_of_false
        · rintro ⟨e, he⟩
          unfold RelationshipSchema.validate at he
          rw [if_neg hep] at he
          dsimp only at he
          simp only [h1, h3, List.isEmpty_nil, if_true] at he
          simp at he
        · rintro (hep' | ⟨k, hk, hnk⟩ | ⟨kv, hkv, spec, hsp, hne, hinst⟩)
          · exact hep hep'
          · have := List.filter_eq_nil_iff.mp h1 k hk
            simp at this
            obtain ⟨x, hx⟩ := this
            exact hnk (List.mem_map.mpr ⟨(k, x), hx, rfl⟩)
          · have := List.find?_eq_none.mp h3 kv hkv
            have ht : typeOk s.properties kv = true := by simpa using this
            have hf : typeOk s.properties kv = false :=
              (typeOk_eq_false_iff _ _).mpr ⟨hne, spec, hsp, hinst⟩
            rw [ht] at hf
            exact absurd hf (by simp)
    · apply iff_of_true
      · refine ⟨GraphSchemaError.unknownProperty s.rel_type.value (String.intercalate ", "
          ((props.map Prod.fst).filter
            (fun k => !(s.properties.map Prod.fst).contains k))), ?_⟩
        unfold RelationshipSchema.validate
        rw [if_neg hep]
        dsimp only
        have h1' : ((props.map Prod.fst).filter
            (fun k => !(s.properties.map Prod.fst).contains k)).isEmpty = false := by
          simpa using h1
        simp only [h1', Bool.false_eq_true, if_false]
      · refine Or.inr (Or.inl ?_)
        obtain ⟨k, hk⟩ := List.exists_mem_of_ne_nil _ h1
        have hmem := List.mem_filter.mp hk
        refine ⟨k, hmem.1, ?_⟩
        simpa using hmem.2

/-- C5: the two validators raise `GraphSchemaError` if and only if the
property map contains an undeclared key, (for nodes) a declared required key
is absent, a present non-`None` value has a runtime type outside the declared
tuple, or (for relationships) the endpoint labels differ from the declared
pair; otherwise they return normally. -/
theorem validate_error_characterization :
    (∀ (s : NodeSchema) (props : Props),
      (∃ e, s.validate_props props = .error e) ↔
        ((∃ k ∈ props.map Prod.fst, k ∉ s.properties.map Prod.fst) ∨
         (∃ pr ∈ s.properties, pr.2.required = true ∧ pr.1 ∉ props.map Prod.fst) ∨
         (∃ kv ∈ props, ∃ spec, s.properties.lookup kv.1 = some spec ∧
            kv.2 ≠ PyVal.none ∧ isinstAny kv.2 spec.py_type = false))) ∧
    (∀ (s : RelationshipSchema) (sl el : NodeLabel) (props : Props),
      (∃ e, s.validate sl el props = .error e) ↔
        ((sl ≠ s.start_label ∨ el ≠ s.end_label) ∨
         (∃ k ∈ props.map Prod.fst, k ∉ s.properties.map Prod.fst) ∨
         (∃ kv ∈ props, ∃ spec, s.properties.lookup kv.1 = some spec ∧
            kv.2 ≠ PyVal.none ∧ isinstAny kv.2 spec.py_type = false))) :=
  ⟨validate_props_error_iff, validate_rel_error_iff⟩

/-- Key preservation of a single `_merge_weights` loop step. -/
theorem updAssoc_keys (base : List (String × ℚ)) (k : String) (v : ℚ) :
    (updAssoc base k v).map Prod.fst = base.map Prod.fst := by
  unfold updAssoc
  rw [List.map_map]
  apply List.map_congr_left
  intro p _
  by_cases h : p.1 = k <;> simp [h]

/-- Keys are unchanged by the loop body of `_merge_weights`. -/
theorem mergeStep_keys (base : List (String × ℚ)) (kv : String × Option ℚ) :
    (mergeStep base kv).map Prod.fst = base.map Prod.fst := by
  obtain ⟨k, ov⟩ := kv
  cases ov with
  | none => rfl
  | some v =>
    unfold mergeStep
    dsimp only
    split
    · exact updAssoc_keys base k v
    · rfl

/-- Keys are unchanged by the whole `_merge_weights` loop. -/
theorem foldl_mergeStep_keys (l : List (String × Option ℚ)) (base : List (String × ℚ)) :
    (l.foldl mergeStep base).map Prod.fst = base.map Prod.fst := by
  induction l generalizing base with
  | nil => rfl
  | cons kv rest ih => rw [List.foldl_cons, ih, mergeStep_keys]

/-- Looking a key up past a head entry with a different key. -/
theorem lookup_cons_ne {β : Type} {k a : String} (b : β) {es : List (String × β)}
    (h : a ≠ k) : ((k, b) :: es).lookup a = es.lookup a := by
  rw [List.lookup_cons, beq_eq_false_iff_ne.mpr h]

/-- Updating a present key makes its looked-up value the new one. -/
theorem updAssoc_lookup_self (base : List (String × ℚ)) (k : String) (v : ℚ)
    (hk : k ∈ base.map Prod.fst) : (updAssoc base k v).lookup k = some v := by
  induction base with
  | nil => simp at hk
  | cons p rest ih =>
    obtain ⟨pk, pv⟩ := p
    by_cases h : pk = k
    · subst h
      show ((if pk = pk then (pk, v) else (pk, pv)) :: updAssoc rest pk v).lookup pk = some v
      rw [if_pos rfl]
      exact List.lookup_cons_self
    · have hk' : k ∈ rest.map Prod.fst := by
        simp only [List.map_cons, List.mem_cons] at hk
        rcases hk with h1 | h2
        · exact absurd h1.symm h
        · exact h2
      show ((if pk = k then (pk, v) else (pk, pv)) :: updAssoc rest k v).lookup k = some v
      rw [if_neg h, lookup_cons_ne _ (fun hc => h hc.symm)]
      exact ih hk'

/-- Updating one key leaves every other key looked up unchanged. -/
theorem updAssoc_lookup_other (base : List (String × ℚ)) (k : String) (v : ℚ)
    (k' : String) (h : k' ≠ k) : (updAssoc base k v).lookup k' = base.lookup k' := by
  induction base with
  | nil => rfl
  | cons p rest ih =>
    obtain ⟨pk, pv⟩ := p
    show ((if pk = k then (pk, v) else (pk, pv)) :: updAssoc rest k v).lookup k' =
      ((pk, pv) :: rest).lookup k'
    by_cases hp : pk = k
    · rw [if_pos hp]
      by_cases hq : k' = pk
      · exact absurd (hq.trans hp) h
      · rw [lookup_cons_ne _ hq, lookup_cons_ne _ hq]
        exact ih
    · rw [if_neg hp]
      by_cases hq : k' = pk
      · subst hq
        rw [List.lookup_cons_self, List.lookup_cons_self]
      · rw [lookup_cons_ne _ hq, lookup_cons_ne _ hq]
        exact ih

/-- A key that only ever appears with value `None` in the override dict keeps
its base value through the `_merge_weights` loop. -/
theorem foldl_lookup_absent (l : List (String × Option ℚ)) (base : List (String × ℚ))
    (k : String) (h : ∀ ov, (k, ov) ∈ l → ov = Option.none) :
    (l.foldl mergeStep base).lookup k = base.lookup k := by
  induction l generalizing base with
  | nil => rfl
  | cons kv rest ih =>
    obtain ⟨k1, ov⟩ := kv
    rw [List.foldl_cons, ih _ (fun ov' hov' => h ov' (List.mem_cons_of_mem _ hov'))]
    by_cases hk : k1 = k
    · subst hk
      have hov := h ov (List.mem_cons_self _ _)
      subst hov
      rfl
    · cases ov with
      | none => rfl
      | some v =>
        unfold mergeStep
        dsimp only
        split
        · exact updAssoc_lookup_other base k1 v k (fun hc => hk hc.symm)
        · rfl

/-- A key overridden with a non-`None` value in the (duplicate-free) override
dict looks up to that value after the `_merge_weights` loop, provided the base
table declares the key. -/
theorem foldl_lookup_override (l : List (String × Option ℚ)) (base : List (String × ℚ))
    (k : String) (v : ℚ) (hnd : (l.map Prod.fst).Nodup)
    (hl : l.lookup k = some (some v)) (hk : k ∈ base.map Prod.fst) :
    (l.foldl mergeStep base).lookup k = some v := by
  induction l generalizing base with
  | nil => simp at hl
  | cons kv rest ih =>
    obtain ⟨k1, ov⟩ := kv
    rw [List.foldl_cons]
    by_cases hq : k = k1
    · subst hq
      rw [List.lookup_cons_self] at hl
      obtain rfl : ov = some v := Option.some.inj hl
      have hnotin : k ∉ rest.map Prod.fst := (List.nodup_cons.mp hnd).1
      rw [foldl_lookup_absent rest _ k
        (fun ov' hov' => absurd (List.mem_map.mpr ⟨(k, ov'), hov', rfl⟩) hnotin)]
      have hc : (base.map Prod.fst).contains k = true := by simpa using hk
      unfold mergeStep
      dsimp only
      rw [if_pos hc]
      exact updAssoc_lookup_self base k v hk
    · have hl' : rest.lookup k = some (some v) := by
        rwa [lookup_cons_ne _ hq] at hl
      have hnd' : (rest.map Prod.fst).Nodup := (List.nodup_cons.mp hnd).2
      exact ih (mergeStep base (k1, ov)) hnd' hl' (by rw [mergeStep_keys]; exact hk)

/-- C9: `_merge_weights` of a falsy argument is exactly the default table
(skills 0.6, job_titles 0.1, languages 0.05, education 0, keywords 0,
location 0.05); any override keeps exactly the six default keys, a key present
with a non-`None` value is replaced by that value, keys appearing only with
`None` (and in particular unspecified keys) keep their default value, and
override keys outside the table cannot change any looked-up value. -/
theorem merge_weights_spec :
    merge_weights Option.none =
      [("skills", 3/5), ("job_titles", 1/10), ("languages", 1/20),
       ("education", 0), ("keywords", 0), ("location", 1/20)] ∧
    merge_weights (some []) = DEFAULT_WEIGHTS ∧
    (∀ w, (merge_weights (some w)).map Prod.fst = DEFAULT_WEIGHTS.map Prod.fst) ∧
    (∀ w k v, (w.map Prod.fst).Nodup → w.lookup k = some (some v) →
      k ∈ DEFAULT_WEIGHTS.map Prod.fst → (merge_weights (some w)).lookup k = some v) ∧
    (∀ w k, (∀ ov, (k, ov) ∈ w → ov = Option.none) →
      (merge_weights (some w)).lookup k = DEFAULT_WEIGHTS.lookup k) := by
  refine ⟨by norm_num [merge_weights, DEFAULT_WEIGHTS], rfl, ?_, ?_, ?_⟩
  · intro w
    unfold merge_weights
    dsimp only
    split
    · rfl
    · exact foldl_mergeStep_keys w DEFAULT_WEIGHTS
  · intro w k v hnd hl hk
    by_cases hw : w.isEmpty
    · rw [List.isEmpty_iff] at hw
      subst hw
      simp at hl
    · simp only [Bool.not_eq_true] at hw
      simp only [merge_weights, hw, Bool.false_eq_true, if_false]
      exact foldl_lookup_override w DEFAULT_WEIGHTS k v hnd hl hk
  · intro w k h
    by_cases hw : w.isEmpty
    · rw [List.isEmpty_iff] at hw
      subst hw
      rfl
    · simp only [Bool.not_eq_true] at hw
      simp only [merge_weights, hw, Bool.false_eq_true, if_false]
      exact foldl_lookup_absent w DEFAULT_WEIGHTS k h

/-- C9 witness: an override with one real key, one unknown key and one `None`
value; `skills` is replaced, `job_titles` keeps its default. -/
theorem merge_weights_spec_witness :
    (merge_weights (some [("skills", some 1), ("bogus", some 2),
        ("languages", (Option.none : Option ℚ))])).lookup "skills" = some 1 ∧
    (merge_weights (some [("skills", some 1), ("bogus", some 2),
        ("languages", (Option.none : Option ℚ))])).lookup "job_titles" =
      DEFAULT_WEIGHTS.lookup "job_titles" := by
  constructor
  · exact merge_weights_spec.2.2.2.1
      [("skills", some 1), ("bogus", some 2), ("languages", Option.none)]
      "skills" 1 (by decide) (by decide) (by decide)
  · exact merge_weights_spec.2.2.2.2
      [("skills", some 1), ("bogus", some 2), ("languages", Option.none)]
      "job_titles" (by intro ov hov; simp at hov)

/-- A row survives the WHERE clause only if every conjunct, in particular the
salary conjunct, evaluates to `true` under three-valued logic. -/
theorem passesFilter_false_of_salary (p : MatchParams) (c : CandidateNode)
    (h : salaryCond p c ≠ TV.t) : passesFilter p c = false := by
  have hw : candidateWhere p c ≠ TV.t := by
    intro hc
    unfold candidateWhere at hc
    have h1 := (tvAnd_eq_t_iff _ _).mp hc
    have h2 := (tvAnd_eq_t_iff _ _).mp h1.1
    have h3 := (tvAnd_eq_t_iff _ _).mp h2.1
    have h4 := (tvAnd_eq_t_iff _ _).mp h3.1
    have h5 := (tvAnd_eq_t_iff _ _).mp h4.1
    exact h h5.2
  unfold passesFilter
  exact beq_eq_false_iff_ne.mpr hw

/-- C1 counterexample: with `must_have.salary_max = 2000` and no other
constraint, a candidate with neither `salary_max` nor `salary_expectation.max`
set is excluded - the coalesced salary is null, `null <= 2000` is null, and
the WHERE clause is not true - although the same candidate passes when the
salary bound is absent, contradicting the claim that candidates with no
salary_max set still pass the salary constraint. -/
theorem salary_filter_null_counterexample :
    passesFilter { emptyMatchParams with salaryMax := some 2000 }
      ⟨Option.none, Option.none, Option.none, Option.none, [], [], []⟩ = false ∧
    salaryCond { emptyMatchParams with salaryMax := some 2000 }
      ⟨Option.none, Option.none, Option.none, Option.none, [], [], []⟩ ≠ TV.t ∧
    passesFilter emptyMatchParams
      ⟨Option.none, Option.none, Option.none, Option.none, [], [], []⟩ = true := by
  refine ⟨by decide, by decide, by decide⟩

/-- C1 amended: when `must_have.salary_max` is provided, a candidate whose
coalesced salary (`salary_max`, else `salary_expectation.max`) exceeds the
bound is excluded, and a candidate with neither salary field set is also
excluded (the null comparison is not true); a candidate whose coalesced salary
is within the bound satisfies the salary conjunct; when `must_have.salary_max`
is absent the salary conjunct is true for every candidate, so it excludes no
one. -/
theorem salary_filter_spec (p : MatchParams) (c : CandidateNode) (b : ℚ) :
    (p.salaryMax = some b →
      ∀ v, cypCoalesce c.salary_max c.salary_expectation_max = some v → b < v →
        passesFilter p c = false) ∧
    (p.salaryMax = some b →
      cypCoalesce c.salary_max c.salary_expectation_max = Option.none →
        passesFilter p c = false) ∧
    (p.salaryMax = some b →
      ∀ v, cypCoalesce c.salary_max c.salary_expectation_max = some v → v ≤ b →
        salaryCond p c = TV.t) ∧
    (p.salaryMax = Option.none → salaryCond p c = TV.t) := by
  refine ⟨?_, ?_, ?_, ?_⟩
  · intro hb v hv hlt
    apply passesFilter_false_of_salary
    simp [salaryCond, hb, hv, tvLe, tvOr, tvOfBool, not_le.mpr hlt]
  · intro hb hv
    apply passesFilter_false_of_salary
    simp [salaryCond, hb, hv, tvLe, tvOr, tvOfBool]
  · intro hb v hv hle
    simp [salaryCond, hb, hv, tvLe, tvOr, tvOfBool, hle]
  · intro hb
    simp [salaryCond, hb, tvOr, tvOfBool]

/-- C1 witness: the amended theorem applied to a candidate with salary 2500
against the bound 2000 (excluded) and to the no-bound case (conjunct true). -/
theorem salary_filter_spec_witness :
    passesFilter { emptyMatchParams with salaryMax := some 2000 }
      ⟨Option.none, some 2500, Option.none, Option.none, [], [], []⟩ = false ∧
    salaryCond emptyMatchParams
      ⟨Option.none, some 2500, Option.none, Option.none, [], [], []⟩ = TV.t := by
  constructor
  · exact (salary_filter_spec _ _ 2000).1 rfl 2500 rfl (by norm_num)
  · exact (salary_filter_spec _ ⟨Option.none, some 2500, Option.none, Option.none, [], [], []⟩ 0).2.2.2 rfl

/-- C8 witness: a whitespace-only key and a blank candidate uid, on the skill
repository with a runner that would answer any statement. -/
theorem empty_key_empty_id_witness :
    (stripOrNone (some "   ") = Option.none ∨ stripOrNone (some "   ") = some "") ∧
    DictRepo.upsert SkillManagement (fun _ _ => [[PyVal.str "u-1"]]) (some "   ") Option.none =
      (.error (.valueError "name must be non-empty"), []) ∧
    ("" = "" ∨ "skill-uid" = "") ∧
    DictRepo.link_by_uids SkillManagement (fun _ _ => [[PyVal.str "u-1"]]) "" "skill-uid" Option.none =
      (.error (.valueError "candidate_uid and feature_uid must be non-empty"), []) := by
  have h1 : stripOrNone (some "   ") = Option.none ∨ stripOrNone (some "   ") = some "" :=
    Or.inr (by decide)
  have h2 : ("" : String) = "" ∨ ("skill-uid" : String) = "" := Or.inl rfl
  exact ⟨h1,
    (empty_key_empty_id SkillManagement (fun _ _ => [[PyVal.str "u-1"]])).1 (some "   ") Option.none h1,
    h2,
    (empty_key_empty_id SkillManagement (fun _ _ => [[PyVal.str "u-1"]])).2 "" "skill-uid" Option.none h2⟩

end Hunter
